import Mathlib

/-!
# Verification of the Calls-audit rubric scoring and record maintenance logic

Shallow embedding of `src/app.py` (single-file Streamlit application).

Modelling conventions:
* Python numbers are modelled as exact rationals (`ℚ`); supplied sub-scores
  are integers (`ℤ`), matching the data model.  Python `int(x)` (truncation
  toward zero) and `round(x, n)` (round-half-to-even) are modelled explicitly
  by `pyInt` / `pyRoundHalfEven` / `pyRound1`.
* Python dictionaries of scores are modelled as partial maps
  `String → Option ℤ`; `dict.get(k, d)` becomes `(m k).getD d`.
* The f-string templates the code appends to its insight / coaching lists are
  modelled as constructors of inductive types carrying exactly the data that
  is interpolated into the template (decimal formatting of the interpolated
  numbers is not modelled; no claim depends on it).
* Real time, the filesystem and `datetime.fromisoformat` are outside the
  embedding: `cleanup_old_records` is parameterised by the current epoch time
  `now` and by a timestamp parser `parse : String → Option ℚ` standing for
  `datetime.fromisoformat(s.replace('Z', '+00:00')).timestamp()`.
-/

namespace CallsAudit

/-- `int(q)` in Python: truncation toward zero. -/
def pyInt (q : ℚ) : ℤ := if 0 ≤ q then ⌊q⌋ else ⌈q⌉

/-- `round(q)` in Python: round half to even, to an integer. -/
def pyRoundHalfEven (q : ℚ) : ℤ :=
  let f := ⌊q⌋
  let r := q - f
  if r < 1/2 then f
  else if 1/2 < r then f + 1
  else if Even f then f else f + 1

/-- `round(q, 1)` in Python: round half to even at one decimal place. -/
def pyRound1 (q : ℚ) : ℚ := (pyRoundHalfEven (q * 10) : ℚ) / 10

/-- A Python dict of sub-scores: a partial map from key to integer value. -/
abbrev ScoreDict := String → Option ℤ

/-- The everywhere-undefined score dict (`{}` in Python). -/
def emptyDict : ScoreDict := fun _ => none

/-- Build a score dict from an association list. -/
def dictOf (l : List (String × ℤ)) : ScoreDict := fun k => l.lookup k

/-- `IRON_LADY_PARAMETERS["Core Quality Dimensions"]`, keys with their
`weight` entries (src/app.py lines 496-502). -/
def coreQualityDimensions : List (String × ℤ) :=
  [("rapport_building", 20), ("needs_discovery", 25), ("solution_presentation", 25),
   ("objection_handling", 15), ("closing_technique", 15)]

/-- `IRON_LADY_PARAMETERS["Iron Lady Specific Parameters"]`, keys with their
`weight` entries (src/app.py lines 503-514). -/
def ironLadySpecificParameters : List (String × ℤ) :=
  [("profile_understanding", 10), ("credibility_building", 10), ("principles_usage", 10),
   ("case_studies_usage", 10), ("gap_creation", 10), ("bhag_fine_tuning", 10),
   ("urgency_creation", 10), ("commitment_getting", 10), ("contextualisation", 10),
   ("excitement_creation", 10)]

/-- `CALL_TYPE_FOCUS` (src/app.py lines 517-524). -/
def CALL_TYPE_FOCUS : List (String × List String) :=
  [("Welcome Call", ["rapport_building", "profile_understanding", "credibility_building",
      "principles_usage", "case_studies_usage", "gap_creation", "bhag_fine_tuning",
      "commitment_getting", "urgency_creation", "contextualisation", "excitement_creation"]),
   ("BHAG Call", ["bhag_fine_tuning", "gap_creation", "case_studies_usage",
      "commitment_getting", "principles_usage", "urgency_creation", "closing_technique"]),
   ("Registration Call", ["urgency_creation", "objection_handling", "commitment_getting",
      "solution_presentation", "credibility_building", "closing_technique"]),
   ("30 Sec Pitch", ["profile_understanding", "gap_creation", "case_studies_usage",
      "urgency_creation", "commitment_getting", "excitement_creation"]),
   ("Second Level Call", ["credibility_building", "objection_handling",
      "solution_presentation", "case_studies_usage", "commitment_getting"]),
   ("Follow Up Call", ["commitment_getting", "objection_handling", "urgency_creation",
      "case_studies_usage", "closing_technique"])]

/-- Weight (declared maximum) of a core dimension, as an integer
(`IRON_LADY_PARAMETERS["Core Quality Dimensions"][param]["weight"]`). -/
def coreWeight (k : String) : ℤ := (coreQualityDimensions.lookup k).getD 0

/-- The resolved `core_dimensions` dict built at src/app.py lines 1091-1097:
every core key is present, missing inputs fall back to the literal defaults. -/
def coreDimensions (core_dims : ScoreDict) : List (String × ℤ) :=
  [("rapport_building", (core_dims "rapport_building").getD 10),
   ("needs_discovery", (core_dims "needs_discovery").getD 12),
   ("solution_presentation", (core_dims "solution_presentation").getD 12),
   ("objection_handling", (core_dims "objection_handling").getD 8),
   ("closing_technique", (core_dims "closing_technique").getD 8)]

/-- The resolved `iron_lady_parameters` dict built at src/app.py
lines 1102-1113: every parameter defaults to 5 when missing. -/
def ironLadyParameters (il_params : ScoreDict) : List (String × ℤ) :=
  [("profile_understanding", (il_params "profile_understanding").getD 5),
   ("credibility_building", (il_params "credibility_building").getD 5),
   ("principles_usage", (il_params "principles_usage").getD 5),
   ("case_studies_usage", (il_params "case_studies_usage").getD 5),
   ("gap_creation", (il_params "gap_creation").getD 5),
   ("bhag_fine_tuning", (il_params "bhag_fine_tuning").getD 5),
   ("urgency_creation", (il_params "urgency_creation").getD 5),
   ("commitment_getting", (il_params "commitment_getting").getD 5),
   ("contextualisation", (il_params "contextualisation").getD 5),
   ("excitement_creation", (il_params "excitement_creation").getD 5)]

/-- `resolved.get(k, 0)` on a resolved dict (src/app.py lines 1198-1211). -/
def lookupScore (l : List (String × ℤ)) (k : String) : ℤ := (l.lookup k).getD 0

/-- `enhanced_metadata` (src/app.py lines 1119-1129), with the `.get`
defaults already applied. -/
structure Metadata where
  case_studies_mentioned : List String
  principles_mentioned : List String
  participant_name_usage_count : ℤ
  powerfully_invite_used : Bool
  commitments_secured : List String
  bhag_initial : String
  bhag_expanded : String
  gap_quantified : String
  urgency_tactics : List String
deriving DecidableEq, Repr

/-- The metadata produced when the caller passes `metadata=None`. -/
def emptyMetadata : Metadata :=
  ⟨[], [], 0, false, [], "Not captured", "Not expanded", "Not quantified", []⟩

/-- Entries of the four insight lists.  Each constructor stands for one
f-string template of src/app.py, carrying the interpolated data. -/
inductive Insight where
  /-- line 1157: `Strong {param} - {score}/{max} ({pct}%)` -/
  | strongCore (param : String) (score : ℤ) (maxScore : ℤ)
  /-- line 1158: `Excellent {param}` -/
  | excellentCore (param : String)
  /-- line 1160: `Weak {param} - {score}/{max}` -/
  | weakCore (param : String) (score : ℤ) (maxScore : ℤ)
  /-- line 1161: `Improve {param}` -/
  | improveCore (param : String)
  /-- line 1168: `Strong {param} - {score}/10` -/
  | strongIL (param : String) (score : ℤ)
  /-- line 1170: `Weak {param} - {score}/10` -/
  | weakIL (param : String) (score : ℤ)
  /-- line 1171: `Improve {param}` -/
  | improveIL (param : String)
  /-- line 1174 filler: `Professional approach maintained` -/
  | professionalApproach
  /-- line 1176 filler: `Fine-tune methodology execution` -/
  | fineTuneMethodology
  /-- line 1178 filler: `Deepen Iron Lady framework usage` -/
  | deepenFramework
  /-- line 1180 filler: `Call structure followed` -/
  | callStructure
  /-- line 1228: `Case studies used: ...` (first three names) -/
  | caseStudiesUsed (names : List String)
  /-- line 1230: `NO case study names mentioned` -/
  | noCaseStudyNames
  /-- line 1234: `Principles used: ...` (first three names) -/
  | principlesUsed (names : List String)
  /-- line 1236: `NO principles mentioned by name` -/
  | noPrinciplesNamed
  /-- line 1240: `Used 'Powerfully Invite' language` -/
  | powerfullyInvite
  /-- line 1242: `Did NOT use 'Powerfully Invite'` -/
  | noPowerfullyInvite
  /-- line 1246: `Secured {n} commitments` -/
  | commitmentsCount (n : ℕ)
  /-- line 1249: `Used participant name {n} times` -/
  | nameUsedOften (n : ℤ)
  /-- line 1251: `Only used name {n} times (need 5+)` -/
  | nameUsedFew (n : ℤ)
  /-- line 1253: `Participant name NOT used` -/
  | nameNotUsed
deriving DecidableEq, Repr

/-- Entries of the two coaching-recommendation lists, one constructor per
f-string template of src/app.py. -/
inductive Coaching where
  /-- line 1191: `Priority: Improve {param} to {int(max*0.8)}/{max}` -/
  | priorityImprove (param : String) (target : ℤ) (maxScore : ℤ)
  /-- line 1195: `Focus: {param} needs work (current: {score}/10, target: 8+)` -/
  | focusNeedsWork (param : String) (score : ℤ)
  /-- line 1199: `CRITICAL: Mention 27 Principles by name ...` -/
  | criticalPrinciples
  /-- line 1201: `CRITICAL: Use specific case study names ...` -/
  | criticalCaseStudies
  /-- line 1203: `CRITICAL: Get explicit commitments ...` -/
  | criticalCommitments
  /-- line 1206 filler: `Maintain current performance levels` -/
  | maintainPerformance
  /-- line 1206 filler: `Continue professional approach` -/
  | continueProfessional
  /-- line 1208 filler: `Integrate more 27 Principles by name` -/
  | integratePrinciples
  /-- line 1208 filler: `Use more case studies` -/
  | useMoreCaseStudies
  /-- line 1208 filler: `Deepen BHAG exploration` -/
  | deepenBhag
  /-- line 1231: `CRITICAL: Use specific names (Neha, Rashmi, Chandana)` -/
  | urgentCaseStudyNames
  /-- line 1237: `CRITICAL: Mention principles by exact name ...` -/
  | urgentPrinciplesName
  /-- line 1243: `Say: 'I powerfully invite you to join this journey'` -/
  | sayPowerfullyInvite
deriving DecidableEq, Repr

/-- The reasoning template of the outcome prediction (src/app.py lines
1216, 1220, 1224), carrying the interpolated overall score. -/
inductive Reasoning where
  | strongExecution (overall : ℚ)
  | moderatePerformance (overall : ℚ)
  | belowStandards (overall : ℚ)
deriving DecidableEq, Repr

/-- The `outcome_prediction` sub-record. -/
structure OutcomePrediction where
  likely_result : String
  confidence : ℤ
  reasoning : Reasoning
deriving DecidableEq, Repr

/-- The `key_insights` sub-record. -/
structure KeyInsights where
  strengths : List Insight
  critical_gaps : List Insight
  missed_opportunities : List Insight
  best_moments : List Insight
deriving DecidableEq, Repr

/-- The `call_summary` f-string (src/app.py lines 1256-1261), as the data
interpolated into it. -/
structure CallSummary where
  call_type : String
  overall_score : ℚ
  methodology_compliance : ℚ
  justification : String
  case_studies_suffix : Option (List String)
deriving DecidableEq, Repr

/-- The dict returned by `generate_analysis_from_scores`
(src/app.py lines 1263-1284). -/
structure Analysis where
  overall_score : ℚ
  methodology_compliance : ℚ
  call_effectiveness : String
  core_dimensions : List (String × ℤ)
  iron_lady_parameters : List (String × ℤ)
  enhanced_tracking : Metadata
  key_insights : KeyInsights
  outcome_prediction : OutcomePrediction
  coaching_recommendations : List Coaching
  iron_lady_specific_coaching : List Coaching
  call_summary : CallSummary
deriving DecidableEq, Repr

/-- The `effectiveness` threshold ladder (src/app.py lines 1137-1144). -/
def effectivenessOf (overall_score : ℚ) : String :=
  if overall_score ≥ 85 then "Excellent"
  else if overall_score ≥ 70 then "Good"
  else if overall_score ≥ 50 then "Average"
  else "Needs Improvement"

/-- Strengths appended by the core-dimension loop (src/app.py lines
1151-1157): percentage at or above 80. -/
def coreStrengths (dims : List (String × ℤ)) : List Insight :=
  dims.flatMap fun ps =>
    let maxScore := coreWeight ps.1
    let pct : ℚ := ((ps.2 : ℚ) / (maxScore : ℚ)) * 100
    if pct ≥ 80 then [Insight.strongCore ps.1 ps.2 maxScore] else []

/-- Best moments appended by the core-dimension loop (line 1158). -/
def coreBestMoments (dims : List (String × ℤ)) : List Insight :=
  dims.flatMap fun ps =>
    let pct : ℚ := ((ps.2 : ℚ) / (coreWeight ps.1 : ℚ)) * 100
    if pct ≥ 80 then [Insight.excellentCore ps.1] else []

/-- Critical gaps appended by the core-dimension loop (lines 1159-1160):
the `elif pct < 50` branch. -/
def coreGaps (dims : List (String × ℤ)) : List Insight :=
  dims.flatMap fun ps =>
    let maxScore := coreWeight ps.1
    let pct : ℚ := ((ps.2 : ℚ) / (maxScore : ℚ)) * 100
    if pct ≥ 80 then [] else if pct < 50 then [Insight.weakCore ps.1 ps.2 maxScore] else []

/-- Missed opportunities appended by the core-dimension loop (line 1161). -/
def coreMissed (dims : List (String × ℤ)) : List Insight :=
  dims.flatMap fun ps =>
    let pct : ℚ := ((ps.2 : ℚ) / (coreWeight ps.1 : ℚ)) * 100
    if pct ≥ 80 then [] else if pct < 50 then [Insight.improveCore ps.1] else []

/-- Strengths appended by the methodology-parameter loop (src/app.py lines
1163-1168): percentage is `score / 10 * 100`. -/
def ilStrengths (params : List (String × ℤ)) : List Insight :=
  params.flatMap fun ps =>
    let pct : ℚ := ((ps.2 : ℚ) / 10) * 100
    if pct ≥ 80 then [Insight.strongIL ps.1 ps.2] else []

/-- Critical gaps appended by the methodology-parameter loop (line 1170). -/
def ilGaps (params : List (String × ℤ)) : List Insight :=
  params.flatMap fun ps =>
    let pct : ℚ := ((ps.2 : ℚ) / 10) * 100
    if pct ≥ 80 then [] else if pct < 50 then [Insight.weakIL ps.1 ps.2] else []

/-- Missed opportunities appended by the methodology-parameter loop
(line 1171). -/
def ilMissed (params : List (String × ℤ)) : List Insight :=
  params.flatMap fun ps =>
    let pct : ℚ := ((ps.2 : ℚ) / 10) * 100
    if pct ≥ 80 then [] else if pct < 50 then [Insight.improveIL ps.1] else []

/-- Stable insertion into a value-sorted list: the new pair goes after all
pairs with a value less than or equal to its own. -/
def insertByValue (x : String × ℤ) : List (String × ℤ) → List (String × ℤ)
  | [] => [x]
  | y :: ys => if y.2 ≤ x.2 then y :: insertByValue x ys else x :: y :: ys

/-- `sorted(d.items(), key=lambda x: x[1])` (src/app.py lines 1185-1186):
stable ascending sort by value. -/
def sortByValue (l : List (String × ℤ)) : List (String × ℤ) :=
  l.foldl (fun acc x => insertByValue x acc) []

/-- `coaching_recommendations` built from the three lowest core dimensions
(src/app.py lines 1188-1191). -/
def coachingFromCore (core_dimensions : List (String × ℤ)) : List Coaching :=
  ((sortByValue core_dimensions).take 3).flatMap fun ps =>
    let maxScore := coreWeight ps.1
    if (ps.2 : ℚ) < (maxScore : ℚ) * 0.7 then
      [Coaching.priorityImprove ps.1 (pyInt ((maxScore : ℚ) * 0.8)) maxScore]
    else []

/-- `il_coaching` built from the four lowest methodology parameters
(src/app.py lines 1193-1195). -/
def ilCoachingBase (iron_lady_parameters : List (String × ℤ)) : List Coaching :=
  ((sortByValue iron_lady_parameters).take 4).flatMap fun ps =>
    if ps.2 < 7 then [Coaching.focusNeedsWork ps.1 ps.2] else []

/-- The three `insert(0, ...)` critical prepends (src/app.py lines
1197-1203), applied in source order so `criticalCommitments` ends first. -/
def ilCoachingWithCritical (iron_lady_parameters : List (String × ℤ)) : List Coaching :=
  let l0 := ilCoachingBase iron_lady_parameters
  let l1 := if lookupScore iron_lady_parameters "principles_usage" < 7 then
      Coaching.criticalPrinciples :: l0 else l0
  let l2 := if lookupScore iron_lady_parameters "case_studies_usage" < 7 then
      Coaching.criticalCaseStudies :: l1 else l1
  if lookupScore iron_lady_parameters "commitment_getting" < 7 then
    Coaching.criticalCommitments :: l2 else l2

/-- The outcome prediction (src/app.py lines 1210-1224). -/
def outcomePredictionOf (overall_score : ℚ) (commit_score bhag_score : ℤ) :
    OutcomePrediction :=
  if overall_score ≥ 80 ∧ commit_score ≥ 7 ∧ bhag_score ≥ 7 then
    OutcomePrediction.mk "registration_expected" (min 95 (pyInt (overall_score + 5)))
      (Reasoning.strongExecution overall_score)
  else if overall_score ≥ 60 then
    OutcomePrediction.mk "follow_up_needed" (min 80 (pyInt (overall_score - 5)))
      (Reasoning.moderatePerformance overall_score)
  else
    OutcomePrediction.mk "needs_improvement" (min 70 (pyInt (overall_score - 15)))
      (Reasoning.belowStandards overall_score)

/-- Body of `generate_analysis_from_scores` after the two input dicts have
been resolved (src/app.py lines 1131-1284). -/
def analysisFromResolved (core_dimensions iron_lady_parameters : List (String × ℤ))
    (metadata : Metadata) (call_type justification : String) : Analysis :=
  -- lines 1131-1135
  let core_total : ℤ := (core_dimensions.map Prod.snd).sum
  let il_total : ℤ := (iron_lady_parameters.map Prod.snd).sum
  let overall_score : ℚ := (core_total : ℚ) * 0.6 + (il_total : ℚ) * 0.4
  let methodology_compliance : ℚ := (il_total : ℚ)
  -- lines 1137-1144
  let effectiveness := effectivenessOf overall_score
  -- lines 1146-1171
  let strengths0 := coreStrengths core_dimensions ++ ilStrengths iron_lady_parameters
  let critical_gaps0 := coreGaps core_dimensions ++ ilGaps iron_lady_parameters
  let missed0 := coreMissed core_dimensions ++ ilMissed iron_lady_parameters
  let best0 := coreBestMoments core_dimensions
  -- lines 1173-1180: fixed fillers when a list is empty
  let strengths1 := if strengths0.isEmpty then [Insight.professionalApproach] else strengths0
  let critical_gaps1 := if critical_gaps0.isEmpty then [Insight.fineTuneMethodology] else critical_gaps0
  let missed1 := if missed0.isEmpty then [Insight.deepenFramework] else missed0
  let best1 := if best0.isEmpty then [Insight.callStructure] else best0
  -- lines 1182-1203
  let coaching0 := coachingFromCore core_dimensions
  let il_coaching0 := ilCoachingWithCritical iron_lady_parameters
  -- lines 1205-1208: fillers
  let coaching1 := if coaching0.isEmpty then
      [Coaching.maintainPerformance, Coaching.continueProfessional] else coaching0
  let il_coaching1 := if il_coaching0.isEmpty then
      [Coaching.integratePrinciples, Coaching.useMoreCaseStudies, Coaching.deepenBhag]
    else il_coaching0
  -- lines 1210-1224
  let commit_score := lookupScore iron_lady_parameters "commitment_getting"
  let bhag_score := lookupScore iron_lady_parameters "bhag_fine_tuning"
  let prediction := outcomePredictionOf overall_score commit_score bhag_score
  -- lines 1227-1231
  let best2 := if metadata.case_studies_mentioned.isEmpty then best1
    else best1 ++ [Insight.caseStudiesUsed (metadata.case_studies_mentioned.take 3)]
  let critical_gaps2 := if metadata.case_studies_mentioned.isEmpty then
      critical_gaps1 ++ [Insight.noCaseStudyNames] else critical_gaps1
  let il_coaching2 := if metadata.case_studies_mentioned.isEmpty then
      Coaching.urgentCaseStudyNames :: il_coaching1 else il_coaching1
  -- lines 1233-1237
  let best3 := if metadata.principles_mentioned.isEmpty then best2
    else best2 ++ [Insight.principlesUsed (metadata.principles_mentioned.take 3)]
  let critical_gaps3 := if metadata.principles_mentioned.isEmpty then
      critical_gaps2 ++ [Insight.noPrinciplesNamed] else critical_gaps2
  let il_coaching3 := if metadata.principles_mentioned.isEmpty then
      Coaching.urgentPrinciplesName :: il_coaching2 else il_coaching2
  -- lines 1239-1243
  let best4 := if metadata.powerfully_invite_used then
      best3 ++ [Insight.powerfullyInvite] else best3
  let missed2 := if metadata.powerfully_invite_used then missed1
    else missed1 ++ [Insight.noPowerfullyInvite]
  let il_coaching4 := if metadata.powerfully_invite_used then il_coaching3
    else il_coaching3 ++ [Coaching.sayPowerfullyInvite]
  -- lines 1245-1246
  let best5 := if metadata.commitments_secured.isEmpty then best4
    else best4 ++ [Insight.commitmentsCount metadata.commitments_secured.length]
  -- lines 1248-1253
  let best6 := if metadata.participant_name_usage_count ≥ 5 then
      best5 ++ [Insight.nameUsedOften metadata.participant_name_usage_count] else best5
  let missed3 := if metadata.participant_name_usage_count ≥ 5 then missed2
    else if metadata.participant_name_usage_count > 0 then
      missed2 ++ [Insight.nameUsedFew metadata.participant_name_usage_count] else missed2
  let critical_gaps4 := if metadata.participant_name_usage_count ≥ 5 then critical_gaps3
    else if metadata.participant_name_usage_count > 0 then critical_gaps3
    else critical_gaps3 ++ [Insight.nameNotUsed]
  -- lines 1255-1261
  let summary := CallSummary.mk call_type overall_score methodology_compliance justification
    (if metadata.case_studies_mentioned.isEmpty then none
     else some metadata.case_studies_mentioned)
  -- lines 1263-1284
  Analysis.mk (pyRound1 overall_score) (pyRound1 methodology_compliance) effectiveness
    core_dimensions iron_lady_parameters metadata
    (KeyInsights.mk (strengths1.take 5) (critical_gaps4.take 5) (missed3.take 5) (best6.take 5))
    prediction (coaching1.take 6) (il_coaching4.take 6) summary

/-- `generate_analysis_from_scores(core_dims, call_type, justification,
il_params, metadata)` (src/app.py lines 1088-1284).  A caller passing
`il_params=None` corresponds to `il_params = emptyDict`, and
`metadata=None` to `metadata = emptyMetadata`. -/
def generate_analysis_from_scores (core_dims : ScoreDict) (call_type justification : String)
    (il_params : ScoreDict) (metadata : Metadata) : Analysis :=
  analysisFromResolved (coreDimensions core_dims) (ironLadyParameters il_params)
    metadata call_type justification

/-- `core_total` as a function of the raw input dict: the sum of the five
resolved core-dimension values (src/app.py line 1131). -/
def coreTotalOf (core_dims : ScoreDict) : ℤ :=
  ((coreDimensions core_dims).map Prod.snd).sum

/-- `il_total` as a function of the raw input dict: the sum of the ten
resolved methodology-parameter values (src/app.py line 1132). -/
def ilTotalOf (il_params : ScoreDict) : ℤ :=
  ((ironLadyParameters il_params).map Prod.snd).sum

/-- `overall_score` before the final rounding (src/app.py line 1134). -/
def overallOf (core_dims il_params : ScoreDict) : ℚ :=
  (coreTotalOf core_dims : ℚ) * 0.6 + (ilTotalOf il_params : ℚ) * 0.4

/-! ## Flat-file database records (src/app.py lines 589-695) -/

/-- The `admin_feedback` dict written by `save_admin_feedback`
(src/app.py lines 685-691). -/
structure AdminFeedback where
  feedback_text : String
  focus_areas : String
  rating : ℤ
  feedback_date : String
  feedback_by : String
deriving DecidableEq, Repr

/-- One record of the flat JSON database.  `id` and `uploaded_at` are the
fields the maintenance functions read; every other field is opaque and
collected in `payload`. -/
structure CallRecord where
  id : String
  uploaded_at : Option String
  admin_feedback : Option AdminFeedback
  payload : String
deriving DecidableEq, Repr

/-- `7 * 24 * 60 * 60` (src/app.py line 607). -/
def seven_days_seconds : ℚ := 7 * 24 * 60 * 60

/-- The per-record decision of the `cleanup_old_records` loop
(src/app.py lines 613-631): a record is kept when `uploaded_at` is absent
or falsy, when parsing raises, or when it is younger than seven days.
`parse` stands for `datetime.fromisoformat(s.replace('Z', '+00:00')).timestamp()`,
with `none` for a raised exception. -/
def keepRecord (parse : String → Option ℚ) (now : ℚ) (r : CallRecord) : Bool :=
  match r.uploaded_at with
  | none => true
  | some s =>
    if s = "" then true
    else match parse s with
      | none => true
      | some t => decide (now - t < seven_days_seconds)

/-- The filtering loop of `cleanup_old_records` (src/app.py lines 610-631),
returning `(cleaned_db, deleted_count)`. -/
def cleanupLoop (parse : String → Option ℚ) (now : ℚ) :
    List CallRecord → List CallRecord × ℕ
  | [] => ([], 0)
  | r :: rest =>
    let tail := cleanupLoop parse now rest
    if keepRecord parse now r then (r :: tail.1, tail.2) else (tail.1, tail.2 + 1)

/-- Result of `cleanup_old_records`: the database file content after the
call, the returned `deleted_count`, and whether `save_db` ran. -/
structure CleanupResult where
  finalDb : List CallRecord
  deleted_count : ℕ
  rewrote : Bool
deriving DecidableEq, Repr

/-- `cleanup_old_records()` (src/app.py lines 603-637): the database file is
rewritten with the cleaned list only when `deleted_count > 0`. -/
def cleanup_old_records (parse : String → Option ℚ) (now : ℚ)
    (db : List CallRecord) : CleanupResult :=
  let cleaned := cleanupLoop parse now db
  CleanupResult.mk (if cleaned.2 > 0 then cleaned.1 else db) cleaned.2
    (decide (cleaned.2 > 0))

/-- The record-update loop of `save_admin_feedback` (src/app.py lines
683-692): the first record whose `id` matches gets its `admin_feedback`
field replaced, then the loop breaks. -/
def setFeedbackFirst (record_id : String) (fb : AdminFeedback) :
    List CallRecord → List CallRecord
  | [] => []
  | r :: rest =>
    if r.id = record_id then
      CallRecord.mk r.id r.uploaded_at (some fb) r.payload :: rest
    else r :: setFeedbackFirst record_id fb rest

/-- `save_admin_feedback(record_id, feedback_text, focus_areas, rating)`
(src/app.py lines 679-695).  `now` stands for
`datetime.now().strftime('%Y-%m-%d %H:%M:%S')`.  Returns the database
content written by `save_db` and the function's return value. -/
def save_admin_feedback (db : List CallRecord) (record_id : String)
    (feedback_text focus_areas : String) (rating : ℤ) (now : String) :
    List CallRecord × Bool :=
  (setFeedbackFirst record_id (AdminFeedback.mk feedback_text focus_areas rating now "Admin") db,
   true)

/-! ## Spec-side definitions

These follow the wording of `spec.md`, for comparison against the embedded
source; each is clearly marked.  They are not translations of the source. -/

/-- Modelled from the spec (§4.1 step 1 / §8 clamping idempotence): the
declared maximum of each rubric key, and per-key clamping of every supplied
value into `[0, declared_max]`.  The source has no counterpart of this
operation. -/
def declaredMax (k : String) : ℤ :=
  ((coreQualityDimensions ++ ironLadySpecificParameters).lookup k).getD 0

/-- Modelled from the spec: clamp every supplied value of a score dict into
`[0, declared_max]` for its key. -/
def specClamp (x : ScoreDict) : ScoreDict :=
  fun k => (x k).map fun v => max 0 (min v (declaredMax k))

/-- Modelled from the spec (§4.2 outcome prediction): the confidence
formulas the spec states, with `round` read as Python's half-even
rounding.  To be compared with the source's `outcomePredictionOf`. -/
def specConfidence (overall_score : ℚ) (commit_score bhag_score : ℤ) : ℤ :=
  if overall_score ≥ 80 ∧ commit_score ≥ 7 ∧ bhag_score ≥ 7 then
    min 95 (pyRoundHalfEven (overall_score + 10))
  else if overall_score ≥ 60 then
    min 80 (pyRoundHalfEven overall_score)
  else
    min 70 (pyRoundHalfEven (overall_score - 10))

/-- The methodology / core parameter a coaching entry names, if any:
`true` exactly when the entry's template mentions the given parameter. -/
def mentionsParam : Coaching → String → Bool
  | .priorityImprove p _ _, k => p = k
  | .focusNeedsWork p _, k => p = k
  | .criticalPrinciples, k => k = "principles_usage"
  | .criticalCaseStudies, k => k = "case_studies_usage"
  | .criticalCommitments, k => k = "commitment_getting"
  | .urgentCaseStudyNames, k => k = "case_studies_usage"
  | .urgentPrinciplesName, k => k = "principles_usage"
  | _, _ => false

/-- Rank of the four effectiveness labels, for stating monotonicity. -/
def effectivenessRank : String → ℕ
  | "Excellent" => 3
  | "Good" => 2
  | "Average" => 1
  | _ => 0

/-- The per-key defaults of the resolved core dict (src/app.py lines
1092-1096). -/
def coreDefault : String → ℤ
  | "rapport_building" => 10
  | "needs_discovery" => 12
  | "solution_presentation" => 12
  | "objection_handling" => 8
  | "closing_technique" => 8
  | _ => 0

/-- Totalize a core input dict with the documented defaults. -/
def fillCore (x : ScoreDict) : ScoreDict :=
  fun k => some ((x k).getD (coreDefault k))

/-- Totalize a methodology input dict with the documented default 5. -/
def fillIl (x : ScoreDict) : ScoreDict :=
  fun k => some ((x k).getD 5)

/-! ## Concrete example inputs used by counterexamples and witnesses -/

/-- Example input: core dimensions at 20/25/25/0/0 (core total 70). -/
def coreC1 : ScoreDict :=
  dictOf [("rapport_building", 20), ("needs_discovery", 25), ("solution_presentation", 25),
          ("objection_handling", 0), ("closing_technique", 0)]

/-- Example input: every methodology parameter at 10. -/
def ilAll10 : ScoreDict :=
  dictOf (ironLadySpecificParameters.map fun p => (p.1, (10 : ℤ)))

/-- Example input: every core dimension at its declared maximum. -/
def coreAllMax : ScoreDict := dictOf coreQualityDimensions

/-- Example input: every core dimension at 0. -/
def coreAll0 : ScoreDict :=
  dictOf (coreQualityDimensions.map fun p => (p.1, (0 : ℤ)))

/-- Example input: every methodology parameter at 0. -/
def ilAll0 : ScoreDict :=
  dictOf (ironLadySpecificParameters.map fun p => (p.1, (0 : ℤ)))

/-- Example input: an out-of-range core dict (rapport_building supplied as
100, above its declared maximum of 20). -/
def coreOutOfRange : ScoreDict := dictOf [("rapport_building", 100)]

/-- Example input: urgency_creation (a Registration Call focus parameter)
at 6/10, five other parameters at 1, the rest at 10, so urgency_creation is
not among the four lowest parameters. -/
def ilFocusGap : ScoreDict :=
  dictOf [("profile_understanding", 1), ("credibility_building", 1), ("principles_usage", 1),
          ("case_studies_usage", 1), ("gap_creation", 1), ("bhag_fine_tuning", 10),
          ("urgency_creation", 6), ("commitment_getting", 10), ("contextualisation", 10),
          ("excitement_creation", 10)]

/-- Example record whose timestamp `parseAt0` maps to epoch 0. -/
def boundaryRecord : CallRecord :=
  CallRecord.mk "r1" (some "1970-01-01T00:00:00") none "payload"

/-- Timestamp parser for the examples: maps the boundary record's timestamp
string to epoch second 0 and fails on everything else. -/
def parseAt0 : String → Option ℚ :=
  fun s => if s = "1970-01-01T00:00:00" then some 0 else none

/-- Example records for the admin-feedback theorems. -/
def recA : CallRecord := CallRecord.mk "a" none none "payload-a"

/-- Second example record, with id "b". -/
def recB : CallRecord := CallRecord.mk "b" none none "payload-b"

/-! ## Helper lemmas -/

theorem pyRoundHalfEven_intCast (z : ℤ) : pyRoundHalfEven (z : ℚ) = z := by
  norm_num [pyRoundHalfEven]

theorem pyRound1_eq_self {q : ℚ} {z : ℤ} (h : q * 10 = (z : ℚ)) : pyRound1 q = q := by
  rw [pyRound1, h, pyRoundHalfEven_intCast, ← h]
  ring

theorem pyRound1_intCast (z : ℤ) : pyRound1 (z : ℚ) = z :=
  pyRound1_eq_self (z := 10 * z) (by push_cast; ring)

theorem pyInt_intCast (z : ℤ) : pyInt (z : ℚ) = z := by
  unfold pyInt
  split_ifs
  · exact Int.floor_intCast z
  · exact Int.ceil_intCast z

theorem overall_score_eq (core il : ScoreDict) (m : Metadata) (ct j : String) :
    (generate_analysis_from_scores core ct j il m).overall_score
      = pyRound1 (overallOf core il) := rfl

theorem compliance_eq (core il : ScoreDict) (m : Metadata) (ct j : String) :
    (generate_analysis_from_scores core ct j il m).methodology_compliance
      = pyRound1 ((ilTotalOf il : ℚ)) := rfl

theorem effectiveness_eq (core il : ScoreDict) (m : Metadata) (ct j : String) :
    (generate_analysis_from_scores core ct j il m).call_effectiveness
      = effectivenessOf (overallOf core il) := rfl

theorem outcome_eq (core il : ScoreDict) (m : Metadata) (ct j : String) :
    (generate_analysis_from_scores core ct j il m).outcome_prediction
      = outcomePredictionOf (overallOf core il)
          ((il "commitment_getting").getD 5) ((il "bhag_fine_tuning").getD 5) := rfl

theorem overallOf_mul_ten (core il : ScoreDict) :
    overallOf core il * 10 = ((6 * coreTotalOf core + 4 * ilTotalOf il : ℤ) : ℚ) := by
  unfold overallOf
  push_cast
  ring

theorem take5_bounds {α : Type} {l : List α} (h : l ≠ []) :
    1 ≤ (l.take 5).length ∧ (l.take 5).length ≤ 5 := by
  have hl : 0 < l.length := List.length_pos.2 h
  refine ⟨?_, ?_⟩
  · rw [List.length_take]; omega
  · rw [List.length_take]; omega

/-! ## Claim theorems -/

/-- C1 (counterexample): at core scores 20/25/25/0/0 and every methodology
parameter 10 the overall score is 82 and branch 1 applies, the code's
confidence is `min(95, int(82 + 5)) = 87`, while the formula claimed by the
spec gives `min(95, round(82 + 10)) = 92`. -/
theorem C1_counterexample :
    (generate_analysis_from_scores coreC1 "Registration Call" "j" ilAll10
        emptyMetadata).outcome_prediction.confidence = 87
    ∧ specConfidence (overallOf coreC1 ilAll10)
        ((ilAll10 "commitment_getting").getD 5) ((ilAll10 "bhag_fine_tuning").getD 5) = 92
    ∧ (87 : ℤ) ≠ 92 := by
  have hc : coreTotalOf coreC1 = 70 := by decide
  have hi : ilTotalOf ilAll10 = 100 := by decide
  have hov : overallOf coreC1 ilAll10 = 82 := by
    unfold overallOf
    rw [hc, hi]
    norm_num
  have hcg : (ilAll10 "commitment_getting").getD 5 = 10 := by decide
  have hbf : (ilAll10 "bhag_fine_tuning").getD 5 = 10 := by decide
  refine ⟨?_, ?_, by decide⟩
  · rw [outcome_eq, hov, hcg, hbf]
    unfold outcomePredictionOf
    rw [if_pos (by norm_num)]
    show min 95 (pyInt (82 + 5)) = 87
    rw [show ((82 : ℚ) + 5) = ((87 : ℤ) : ℚ) by norm_num, pyInt_intCast]
    decide
  · rw [hov, hcg, hbf]
    unfold specConfidence
    rw [if_pos (by norm_num)]
    show min 95 (pyRoundHalfEven (82 + 10)) = 92
    rw [show ((82 : ℚ) + 10) = ((92 : ℤ) : ℚ) by norm_num, pyRoundHalfEven_intCast]
    decide

/-- C1 (amended): the outcome confidence follows the source's branch
formulas: branch 1 (overall ≥ 80, commitment_getting ≥ 7,
bhag_fine_tuning ≥ 7) gives `min(95, int(overall + 5))`, branch 2
(overall ≥ 60) gives `min(80, int(overall - 5))`, otherwise
`min(70, int(overall - 15))`, with `int` truncating toward zero. -/
theorem C1_confidence_formulas (core il : ScoreDict) (m : Metadata) (ct j : String) :
    (generate_analysis_from_scores core ct j il m).outcome_prediction.confidence =
      (if overallOf core il ≥ 80 ∧ (il "commitment_getting").getD 5 ≥ 7
            ∧ (il "bhag_fine_tuning").getD 5 ≥ 7 then
         min 95 (pyInt (overallOf core il + 5))
       else if overallOf core il ≥ 60 then
         min 80 (pyInt (overallOf core il - 5))
       else
         min 70 (pyInt (overallOf core il - 15))) := by
  rw [outcome_eq]
  unfold outcomePredictionOf
  split_ifs <;> rfl

/-- C2 (counterexample): for the out-of-range input rapport_building = 100
(declared maximum 20), scoring the clamped input differs from scoring the
raw input (overall 56 versus 104), so `score(clamp(x)) = score(x)` fails. -/
theorem C2_counterexample :
    (generate_analysis_from_scores (specClamp coreOutOfRange) "Welcome Call" "j"
        (specClamp emptyDict) emptyMetadata).overall_score
      ≠ (generate_analysis_from_scores coreOutOfRange "Welcome Call" "j"
        emptyDict emptyMetadata).overall_score := by
  have h1 : coreTotalOf (specClamp coreOutOfRange) = 60 := by decide
  have h2 : ilTotalOf (specClamp emptyDict) = 50 := by decide
  have h3 : coreTotalOf coreOutOfRange = 140 := by decide
  have h4 : ilTotalOf emptyDict = 50 := by decide
  rw [overall_score_eq, overall_score_eq]
  unfold overallOf
  rw [h1, h2, h3, h4,
    show ((60 : ℤ) : ℚ) * 0.6 + ((50 : ℤ) : ℚ) * 0.4 = ((56 : ℤ) : ℚ) by norm_num,
    show ((140 : ℤ) : ℚ) * 0.6 + ((50 : ℤ) : ℚ) * 0.4 = ((104 : ℤ) : ℚ) by norm_num,
    pyRound1_intCast, pyRound1_intCast]
  decide

/-- C2 (amended): no clamping is performed: every supplied value, whether
negative or above its declared maximum, enters the totals exactly as
supplied (missing keys use the defaults), so out-of-range values are
silently accepted into the aggregation. -/
theorem C2_no_clamping (core il : ScoreDict) (m : Metadata) (ct j : String) :
    (generate_analysis_from_scores core ct j il m).overall_score =
      (((core "rapport_building").getD 10 + (core "needs_discovery").getD 12
          + (core "solution_presentation").getD 12 + (core "objection_handling").getD 8
          + (core "closing_technique").getD 8 : ℤ) : ℚ) * 0.6
      + (((il "profile_understanding").getD 5 + (il "credibility_building").getD 5
          + (il "principles_usage").getD 5 + (il "case_studies_usage").getD 5
          + (il "gap_creation").getD 5 + (il "bhag_fine_tuning").getD 5
          + (il "urgency_creation").getD 5 + (il "commitment_getting").getD 5
          + (il "contextualisation").getD 5 + (il "excitement_creation").getD 5 : ℤ) : ℚ)
        * 0.4 := by
  rw [overall_score_eq, pyRound1_eq_self (overallOf_mul_ten core il)]
  unfold overallOf coreTotalOf ilTotalOf coreDimensions ironLadyParameters
  simp only [List.map_cons, List.map_nil, List.sum_cons, List.sum_nil]
  push_cast
  ring

/-- C3: the overall score is `core_total * 0.6 + methodology_total * 0.4`
where the totals are the sums of the five resolved core-dimension values
and the ten resolved methodology-parameter values, and the methodology
compliance equals the methodology total exactly, independent of the core
scores. -/
theorem C3_overall_and_compliance (core il : ScoreDict) (m : Metadata) (ct j : String) :
    (generate_analysis_from_scores core ct j il m).overall_score
        = (coreTotalOf core : ℚ) * 0.6 + (ilTotalOf il : ℚ) * 0.4
    ∧ (generate_analysis_from_scores core ct j il m).methodology_compliance
        = (ilTotalOf il : ℚ)
    ∧ ∀ core' : ScoreDict,
        (generate_analysis_from_scores core' ct j il m).methodology_compliance
          = (generate_analysis_from_scores core ct j il m).methodology_compliance := by
  refine ⟨?_, ?_, ?_⟩
  · rw [overall_score_eq, pyRound1_eq_self (overallOf_mul_ten core il)]
    rfl
  · rw [compliance_eq, pyRound1_intCast]
  · intro core'
    rw [compliance_eq, compliance_eq]

/-- C4: the effectiveness label is a function of the overall score alone,
by the fixed lower-bound-inclusive thresholds 85 / 70 / 50, hence
non-decreasing in the overall score; 84.9 yields "Good" while 85 yields
"Excellent". -/
theorem C4_effectiveness_label :
    (∀ (core il : ScoreDict) (m : Metadata) (ct j : String),
        (generate_analysis_from_scores core ct j il m).call_effectiveness
          = effectivenessOf (overallOf core il))
    ∧ (∀ q q' : ℚ, q ≤ q' →
        effectivenessRank (effectivenessOf q) ≤ effectivenessRank (effectivenessOf q'))
    ∧ effectivenessOf 84.9 = "Good" ∧ effectivenessOf 85 = "Excellent" := by
  refine ⟨fun core il m ct j => rfl, ?_, by norm_num [effectivenessOf], by
    norm_num [effectivenessOf]⟩
  intro q q' h
  unfold effectivenessOf
  split_ifs <;> first | decide | linarith

/-- Witness for C4 at concrete scores 60 and 90. -/
theorem C4_witness :
    effectivenessRank (effectivenessOf 60) ≤ effectivenessRank (effectivenessOf 90) :=
  C4_effectiveness_label.2.1 60 90 (by norm_num)

theorem coaching_recommendations_eq (core il : ScoreDict) (m : Metadata) (ct j : String) :
    (generate_analysis_from_scores core ct j il m).coaching_recommendations
      = (if (coachingFromCore (coreDimensions core)).isEmpty
         then [Coaching.maintainPerformance, Coaching.continueProfessional]
         else coachingFromCore (coreDimensions core)).take 6 := rfl

/-- C5 (counterexample): with call category Registration Call supplied,
urgency_creation is in that category's focus list and scores 6 (below
7/10), yet no emitted coaching recommendation concerns urgency_creation
at all — the focus lists play no role in coaching. -/
theorem C5_counterexample :
    "urgency_creation" ∈ (CALL_TYPE_FOCUS.lookup "Registration Call").getD []
    ∧ (ilFocusGap "urgency_creation").getD 5 = 6
    ∧ (((generate_analysis_from_scores coreAllMax "Registration Call" "j" ilFocusGap
            emptyMetadata).coaching_recommendations
        ++ (generate_analysis_from_scores coreAllMax "Registration Call" "j" ilFocusGap
            emptyMetadata).iron_lady_specific_coaching).all
          fun c => !(mentionsParam c "urgency_creation")) = true := by
  have h0 : coachingFromCore (coreDimensions coreAllMax) = [] := by
    have hsort : (sortByValue (coreDimensions coreAllMax)).take 3
        = [("objection_handling", (15 : ℤ)), ("closing_technique", 15),
           ("rapport_building", 20)] := by decide
    have hw1 : coreWeight "objection_handling" = 15 := by decide
    have hw2 : coreWeight "closing_technique" = 15 := by decide
    have hw3 : coreWeight "rapport_building" = 20 := by decide
    unfold coachingFromCore
    rw [hsort, List.flatMap_cons, List.flatMap_cons, List.flatMap_cons, List.flatMap_nil]
    norm_num [hw1, hw2, hw3]
  have hA : (generate_analysis_from_scores coreAllMax "Registration Call" "j" ilFocusGap
      emptyMetadata).coaching_recommendations
        = [Coaching.maintainPerformance, Coaching.continueProfessional] := by
    rw [coaching_recommendations_eq, h0]
    decide
  have hB : (generate_analysis_from_scores coreAllMax "Registration Call" "j" ilFocusGap
      emptyMetadata).iron_lady_specific_coaching
        = [Coaching.urgentPrinciplesName, Coaching.urgentCaseStudyNames,
           Coaching.criticalCaseStudies, Coaching.criticalPrinciples,
           Coaching.focusNeedsWork "profile_understanding" 1,
           Coaching.focusNeedsWork "credibility_building" 1] := by decide
  refine ⟨by decide, by decide, ?_⟩
  rw [hA, hB]
  decide

/-- C5 (amended): the supplied call category never changes the coaching
output: both recommendation lists are identical for any two call
categories; the only recommendations beyond the lowest-score ones are the
three fixed checks on principles_usage, case_studies_usage and
commitment_getting, independent of any focus list. -/
theorem C5_category_has_no_effect (core il : ScoreDict) (m : Metadata) (ct ct' j : String) :
    (generate_analysis_from_scores core ct j il m).coaching_recommendations
        = (generate_analysis_from_scores core ct' j il m).coaching_recommendations
    ∧ (generate_analysis_from_scores core ct j il m).iron_lady_specific_coaching
        = (generate_analysis_from_scores core ct' j il m).iron_lady_specific_coaching :=
  ⟨rfl, rfl⟩

/-- C6: a missing rubric key never raises: the analysis of any partial
input equals the analysis of the input completed with the documented
neutral defaults (half of the core maxima as coded: 10/12/12/8/8, and
5/10 for every methodology parameter); in particular a methodology dict
missing excitement_creation is scored with excitement_creation = 5. -/
theorem C6_missing_keys_default :
    (∀ (core il : ScoreDict) (m : Metadata) (ct j : String),
        generate_analysis_from_scores core ct j il m
          = generate_analysis_from_scores (fillCore core) ct j (fillIl il) m)
    ∧ ∀ il : ScoreDict, il "excitement_creation" = none →
        lookupScore (ironLadyParameters il) "excitement_creation" = 5 := by
  constructor
  · intro core il m ct j
    rfl
  · intro il h
    show (il "excitement_creation").getD 5 = 5
    rw [h]
    rfl

/-- Witness for C6: scoring with the empty methodology dict (which lacks
excitement_creation) resolves excitement_creation to 5. -/
theorem C6_witness :
    lookupScore (ironLadyParameters emptyDict) "excitement_creation" = 5 :=
  C6_missing_keys_default.2 emptyDict rfl

/-- C7: each of the four insight lists in the returned record has between
1 and 5 entries, for every input. -/
theorem C7_insight_list_bounds (core il : ScoreDict) (m : Metadata) (ct j : String) :
    (1 ≤ (generate_analysis_from_scores core ct j il m).key_insights.strengths.length
      ∧ (generate_analysis_from_scores core ct j il m).key_insights.strengths.length ≤ 5)
    ∧ (1 ≤ (generate_analysis_from_scores core ct j il m).key_insights.critical_gaps.length
      ∧ (generate_analysis_from_scores core ct j il m).key_insights.critical_gaps.length ≤ 5)
    ∧ (1 ≤ (generate_analysis_from_scores core ct j il m).key_insights.missed_opportunities.length
      ∧ (generate_analysis_from_scores core ct j il m).key_insights.missed_opportunities.length ≤ 5)
    ∧ (1 ≤ (generate_analysis_from_scores core ct j il m).key_insights.best_moments.length
      ∧ (generate_analysis_from_scores core ct j il m).key_insights.best_moments.length ≤ 5) := by
  simp only [generate_analysis_from_scores, analysisFromResolved]
  refine ⟨take5_bounds ?_, take5_bounds ?_, take5_bounds ?_, take5_bounds ?_⟩ <;>
    split_ifs <;> simp_all [List.isEmpty_iff, List.append_eq_nil]

/-- C8 (counterexample): with every core dimension at its declared maximum
but the methodology parameters at 0, the overall score is 60, not 100, so
the invariant quantified over core_scores alone fails. -/
theorem C8_counterexample :
    coreAllMax "rapport_building" = some (declaredMax "rapport_building")
    ∧ coreAllMax "needs_discovery" = some (declaredMax "needs_discovery")
    ∧ coreAllMax "solution_presentation" = some (declaredMax "solution_presentation")
    ∧ coreAllMax "objection_handling" = some (declaredMax "objection_handling")
    ∧ coreAllMax "closing_technique" = some (declaredMax "closing_technique")
    ∧ (generate_analysis_from_scores coreAllMax "Welcome Call" "j" ilAll0
        emptyMetadata).overall_score ≠ 100 := by
  have h1 : coreTotalOf coreAllMax = 100 := by decide
  have h2 : ilTotalOf ilAll0 = 0 := by decide
  refine ⟨by decide, by decide, by decide, by decide, by decide, ?_⟩
  rw [overall_score_eq]
  unfold overallOf
  rw [h1, h2,
    show ((100 : ℤ) : ℚ) * 0.6 + ((0 : ℤ) : ℚ) * 0.4 = ((60 : ℤ) : ℚ) by norm_num,
    pyRound1_intCast]
  norm_num

/-- C8 (amended): with every core dimension AND every methodology parameter
at its declared maximum the overall score is 100; with every value at zero
it is 0. -/
theorem C8_weight_invariant :
    (∀ (core il : ScoreDict) (m : Metadata) (ct j : String),
        (∀ p ∈ coreQualityDimensions, core p.1 = some p.2) →
        (∀ p ∈ ironLadySpecificParameters, il p.1 = some p.2) →
        (generate_analysis_from_scores core ct j il m).overall_score = 100)
    ∧ (∀ (core il : ScoreDict) (m : Metadata) (ct j : String),
        (∀ p ∈ coreQualityDimensions, core p.1 = some 0) →
        (∀ p ∈ ironLadySpecificParameters, il p.1 = some 0) →
        (generate_analysis_from_scores core ct j il m).overall_score = 0) := by
  constructor
  · intro core il m ct j hc hi
    have e1 := hc _ (List.mem_cons_self _ _)
    have e2 := hc _ (by simp [coreQualityDimensions] : ("needs_discovery", (25:ℤ)) ∈ _)
    have e3 := hc _ (by simp [coreQualityDimensions] : ("solution_presentation", (25:ℤ)) ∈ _)
    have e4 := hc _ (by simp [coreQualityDimensions] : ("objection_handling", (15:ℤ)) ∈ _)
    have e5 := hc _ (by simp [coreQualityDimensions] : ("closing_technique", (15:ℤ)) ∈ _)
    have f1 := hi _ (List.mem_cons_self _ _)
    have f2 := hi _ (by simp [ironLadySpecificParameters] : ("credibility_building", (10:ℤ)) ∈ _)
    have f3 := hi _ (by simp [ironLadySpecificParameters] : ("principles_usage", (10:ℤ)) ∈ _)
    have f4 := hi _ (by simp [ironLadySpecificParameters] : ("case_studies_usage", (10:ℤ)) ∈ _)
    have f5 := hi _ (by simp [ironLadySpecificParameters] : ("gap_creation", (10:ℤ)) ∈ _)
    have f6 := hi _ (by simp [ironLadySpecificParameters] : ("bhag_fine_tuning", (10:ℤ)) ∈ _)
    have f7 := hi _ (by simp [ironLadySpecificParameters] : ("urgency_creation", (10:ℤ)) ∈ _)
    have f8 := hi _ (by simp [ironLadySpecificParameters] : ("commitment_getting", (10:ℤ)) ∈ _)
    have f9 := hi _ (by simp [ironLadySpecificParameters] : ("contextualisation", (10:ℤ)) ∈ _)
    have f10 := hi _ (by simp [ironLadySpecificParameters] : ("excitement_creation", (10:ℤ)) ∈ _)
    have hcT : coreTotalOf core = 100 := by
      unfold coreTotalOf coreDimensions
      rw [e1, e2, e3, e4, e5]
      rfl
    have hiT : ilTotalOf il = 100 := by
      unfold ilTotalOf ironLadyParameters
      rw [f1, f2, f3, f4, f5, f6, f7, f8, f9, f10]
      rfl
    rw [overall_score_eq]
    unfold overallOf
    rw [hcT, hiT,
      show ((100 : ℤ) : ℚ) * 0.6 + ((100 : ℤ) : ℚ) * 0.4 = ((100 : ℤ) : ℚ) by norm_num,
      pyRound1_intCast]
    norm_num
  · intro core il m ct j hc hi
    have e1 := hc _ (List.mem_cons_self _ _)
    have e2 := hc _ (by simp [coreQualityDimensions] : ("needs_discovery", (25:ℤ)) ∈ _)
    have e3 := hc _ (by simp [coreQualityDimensions] : ("solution_presentation", (25:ℤ)) ∈ _)
    have e4 := hc _ (by simp [coreQualityDimensions] : ("objection_handling", (15:ℤ)) ∈ _)
    have e5 := hc _ (by simp [coreQualityDimensions] : ("closing_technique", (15:ℤ)) ∈ _)
    have f1 := hi _ (List.mem_cons_self _ _)
    have f2 := hi _ (by simp [ironLadySpecificParameters] : ("credibility_building", (10:ℤ)) ∈ _)
    have f3 := hi _ (by simp [ironLadySpecificParameters] : ("principles_usage", (10:ℤ)) ∈ _)
    have f4 := hi _ (by simp [ironLadySpecificParameters] : ("case_studies_usage", (10:ℤ)) ∈ _)
    have f5 := hi _ (by simp [ironLadySpecificParameters] : ("gap_creation", (10:ℤ)) ∈ _)
    have f6 := hi _ (by simp [ironLadySpecificParameters] : ("bhag_fine_tuning", (10:ℤ)) ∈ _)
    have f7 := hi _ (by simp [ironLadySpecificParameters] : ("urgency_creation", (10:ℤ)) ∈ _)
    have f8 := hi _ (by simp [ironLadySpecificParameters] : ("commitment_getting", (10:ℤ)) ∈ _)
    have f9 := hi _ (by simp [ironLadySpecificParameters] : ("contextualisation", (10:ℤ)) ∈ _)
    have f10 := hi _ (by simp [ironLadySpecificParameters] : ("excitement_creation", (10:ℤ)) ∈ _)
    have hcT : coreTotalOf core = 0 := by
      unfold coreTotalOf coreDimensions
      rw [e1, e2, e3, e4, e5]
      rfl
    have hiT : ilTotalOf il = 0 := by
      unfold ilTotalOf ironLadyParameters
      rw [f1, f2, f3, f4, f5, f6, f7, f8, f9, f10]
      rfl
    rw [overall_score_eq]
    unfold overallOf
    rw [hcT, hiT,
      show ((0 : ℤ) : ℚ) * 0.6 + ((0 : ℤ) : ℚ) * 0.4 = ((0 : ℤ) : ℚ) by norm_num,
      pyRound1_intCast]
    norm_num

/-- Witness for C8 at the all-maximum and all-zero inputs. -/
theorem C8_witness :
    (generate_analysis_from_scores coreAllMax "Welcome Call" "j" ilAll10
        emptyMetadata).overall_score = 100
    ∧ (generate_analysis_from_scores coreAll0 "Welcome Call" "j" ilAll0
        emptyMetadata).overall_score = 0 :=
  ⟨C8_weight_invariant.1 coreAllMax ilAll10 emptyMetadata "Welcome Call" "j"
      (by decide) (by decide),
   C8_weight_invariant.2 coreAll0 ilAll0 emptyMetadata "Welcome Call" "j"
      (by decide) (by decide)⟩

theorem cleanupLoop_fst (parse : String → Option ℚ) (now : ℚ) (db : List CallRecord) :
    (cleanupLoop parse now db).1 = db.filter (keepRecord parse now) := by
  induction db with
  | nil => rfl
  | cons r rest ih =>
    simp only [cleanupLoop, List.filter_cons]
    cases h : keepRecord parse now r <;> simp [h, ih]

theorem cleanupLoop_snd (parse : String → Option ℚ) (now : ℚ) (db : List CallRecord) :
    (cleanupLoop parse now db).2
      = (db.filter fun r => !(keepRecord parse now r)).length := by
  induction db with
  | nil => rfl
  | cons r rest ih =>
    simp only [cleanupLoop, List.filter_cons]
    cases h : keepRecord parse now r <;> simp [h, ih]

theorem keepRecord_false_iff (parse : String → Option ℚ) (now : ℚ) (r : CallRecord) :
    keepRecord parse now r = false ↔
      ∃ s t, r.uploaded_at = some s ∧ s ≠ "" ∧ parse s = some t
        ∧ seven_days_seconds ≤ now - t := by
  unfold keepRecord
  rcases hu : r.uploaded_at with _ | s
  · simp
  · by_cases hs : s = ""
    · subst hs
      simp
    · rcases hp : parse s with _ | t
      · simp [hs, hp]
      · simp [hs, hp, decide_eq_false_iff_not, not_lt]

/-- C9 (counterexample): a record whose timestamp is exactly seven days
(604800 seconds) old is deleted by the code, although it is not more than
seven days old — the age comparison is inclusive, not strict. -/
theorem C9_counterexample :
    (cleanup_old_records parseAt0 604800 [boundaryRecord]).finalDb = []
    ∧ parseAt0 "1970-01-01T00:00:00" = some 0
    ∧ ¬ ((604800 : ℚ) - 0 > seven_days_seconds) := by
  have hk : keepRecord parseAt0 604800 boundaryRecord = false := by
    show (if "1970-01-01T00:00:00" = "" then true
          else match parseAt0 "1970-01-01T00:00:00" with
            | none => true
            | some t => decide ((604800 : ℚ) - t < seven_days_seconds)) = false
    rw [if_neg (by decide), show parseAt0 "1970-01-01T00:00:00" = some 0 from rfl]
    show decide ((604800 : ℚ) - 0 < seven_days_seconds) = false
    rw [decide_eq_false_iff_not]
    norm_num [seven_days_seconds]
  have hloop : cleanupLoop parseAt0 604800 [boundaryRecord] = ([], 1) := by
    simp [cleanupLoop, hk]
  have hfd : (cleanup_old_records parseAt0 604800 [boundaryRecord]).finalDb
      = (if (cleanupLoop parseAt0 604800 [boundaryRecord]).2 > 0
         then (cleanupLoop parseAt0 604800 [boundaryRecord]).1
         else [boundaryRecord]) := rfl
  refine ⟨?_, rfl, by norm_num [seven_days_seconds]⟩
  rw [hfd, hloop]
  rfl

/-- C9 (amended): cleanup_old_records deletes exactly the records whose
uploaded_at is a nonempty string that parses and whose age `now - t` is at
least seven days (inclusive); records with missing, empty or unparseable
timestamps are kept, survivors keep their original relative order, and the
database file is rewritten exactly when at least one record was deleted. -/
theorem C9_cleanup_old_records (parse : String → Option ℚ) (now : ℚ) (db : List CallRecord) :
    (cleanup_old_records parse now db).finalDb
        = (if 0 < (cleanup_old_records parse now db).deleted_count
           then db.filter (keepRecord parse now) else db)
    ∧ (cleanup_old_records parse now db).deleted_count
        = (db.filter fun r => !(keepRecord parse now r)).length
    ∧ ((cleanup_old_records parse now db).finalDb).Sublist db
    ∧ ((cleanup_old_records parse now db).rewrote = true
        ↔ 0 < (cleanup_old_records parse now db).deleted_count)
    ∧ ∀ r : CallRecord, keepRecord parse now r = false ↔
        ∃ s t, r.uploaded_at = some s ∧ s ≠ "" ∧ parse s = some t
          ∧ seven_days_seconds ≤ now - t := by
  have hfd : (cleanup_old_records parse now db).finalDb
      = (if (cleanupLoop parse now db).2 > 0 then (cleanupLoop parse now db).1 else db) := rfl
  have hdc : (cleanup_old_records parse now db).deleted_count
      = (cleanupLoop parse now db).2 := rfl
  have hrw : (cleanup_old_records parse now db).rewrote
      = decide ((cleanupLoop parse now db).2 > 0) := rfl
  refine ⟨?_, ?_, ?_, ?_, keepRecord_false_iff parse now⟩
  · rw [hfd, hdc, cleanupLoop_fst]
  · rw [hdc, cleanupLoop_snd]
  · rw [hfd]
    split_ifs
    · rw [cleanupLoop_fst]
      exact List.filter_sublist db
    · exact List.Sublist.refl db
  · rw [hrw, hdc]
    simp

theorem setFeedbackFirst_no_match (rid : String) (fb : AdminFeedback) :
    ∀ db : List CallRecord, (∀ r ∈ db, r.id ≠ rid) → setFeedbackFirst rid fb db = db := by
  intro db
  induction db with
  | nil => intro _; rfl
  | cons r rest ih =>
    intro h
    have hr : r.id ≠ rid := h r (List.mem_cons_self _ _)
    simp only [setFeedbackFirst, if_neg hr]
    rw [ih fun r' hr' => h r' (List.mem_cons_of_mem _ hr')]

theorem setFeedbackFirst_first (rid : String) (fb : AdminFeedback) :
    ∀ (l₁ : List CallRecord) (r : CallRecord) (l₂ : List CallRecord),
      (∀ r' ∈ l₁, r'.id ≠ rid) → r.id = rid →
      setFeedbackFirst rid fb (l₁ ++ r :: l₂)
        = l₁ ++ CallRecord.mk r.id r.uploaded_at (some fb) r.payload :: l₂ := by
  intro l₁
  induction l₁ with
  | nil =>
    intro r l₂ _ hr
    simp only [List.nil_append, setFeedbackFirst, if_pos hr]
  | cons a rest ih =>
    intro r l₂ h hr
    have ha : a.id ≠ rid := h a (List.mem_cons_self _ _)
    simp only [List.cons_append, setFeedbackFirst, if_neg ha]
    exact congrArg (List.cons a) (ih r l₂ (fun r' hr' => h r' (List.mem_cons_of_mem _ hr')) hr)

/-- C10: save_admin_feedback always returns True; when no record has the
given id the database is saved unchanged; otherwise exactly the first
matching record is updated, only in its admin_feedback field, and every
record before and after it (including later matches) is untouched. -/
theorem C10_save_admin_feedback :
    (∀ (db : List CallRecord) (rid ft fa : String) (rt : ℤ) (now : String),
        (save_admin_feedback db rid ft fa rt now).2 = true)
    ∧ (∀ (db : List CallRecord) (rid ft fa : String) (rt : ℤ) (now : String),
        (∀ r ∈ db, r.id ≠ rid) → (save_admin_feedback db rid ft fa rt now).1 = db)
    ∧ (∀ (l₁ l₂ : List CallRecord) (r : CallRecord) (rid ft fa : String) (rt : ℤ)
          (now : String),
        (∀ r' ∈ l₁, r'.id ≠ rid) → r.id = rid →
        (save_admin_feedback (l₁ ++ r :: l₂) rid ft fa rt now).1
          = l₁ ++ CallRecord.mk r.id r.uploaded_at
              (some (AdminFeedback.mk ft fa rt now "Admin")) r.payload :: l₂) := by
  refine ⟨fun _ _ _ _ _ _ => rfl, ?_, ?_⟩
  · intro db rid ft fa rt now h
    exact setFeedbackFirst_no_match rid _ db h
  · intro l₁ l₂ r rid ft fa rt now h hr
    exact setFeedbackFirst_first rid _ l₁ r l₂ h hr

/-- Witness for C10 on concrete databases: a non-matching id leaves the
database unchanged, and a matching id rewrites only the admin_feedback
field of the matching record. -/
theorem C10_witness :
    (save_admin_feedback [recA] "nomatch" "text" "areas" 4 "2026-01-01 00:00:00").1 = [recA]
    ∧ (save_admin_feedback [recA, recB] "b" "text" "areas" 4 "2026-01-01 00:00:00").1
        = [recA, CallRecord.mk "b" none
            (some (AdminFeedback.mk "text" "areas" 4 "2026-01-01 00:00:00" "Admin"))
            "payload-b"] := by
  constructor
  · exact C10_save_admin_feedback.2.1 [recA] "nomatch" "text" "areas" 4
      "2026-01-01 00:00:00" (by decide)
  · have h := C10_save_admin_feedback.2.2 [recA] [] recB "b" "text" "areas" 4
      "2026-01-01 00:00:00" (by decide) rfl
    simpa [recB] using h

end CallsAudit
